import Mathlib

/-!
Verification of `src/bot.py` (generate-picture-bot): a shallow embedding of
the prompt-rewriting step (`rewrite_prompt_with_qwen`), the language check
(`is_chinese`), the polling image-generation loop
(`generate_image_from_prompt`), and the message-handler guard
(`handle_message`), together with theorems about the spec's claims.

External collaborators (the DashScope HTTP calls and the Telegram
`reply_text` channel) are modelled as oracles supplied to the functions:
`submit` gives the result of `ImageSynthesis.async_call`, `fetch n` the
result of the n-th `ImageSynthesis.fetch`, and `notifyOk k` whether the
k-th `update.message.reply_text` call inside the poller succeeds or raises.
Side effects (log lines, reply attempts) are recorded as an event trace.
-/

namespace Bot

/-- Observable side effects of `generate_image_from_prompt`
    (log calls and `reply_text` attempts, in program order). -/
inductive Ev
  /-- one loop iteration started: sleep, then `elapsed += poll_interval`;
      the payload is the value of `elapsed` for this iteration (line 95). -/
  | poll (elapsed : Nat)
  /-- `ImageSynthesis.fetch` raised; logged and `continue` (lines 99-101). -/
  | fetchExn
  /-- fetch returned a non-200 status; logged and `continue` (lines 103-105). -/
  | fetchHTTPErr
  /-- `logging.info(f"Task {task_id} status: {task_status}")`, emitted when the
      fetched status differs from `last_status` (lines 109-111). -/
  | statusLog (s : String)
  /-- slow-queue `reply_text` attempt (line 115); `ok` records whether the
      send succeeded (`True`) or raised and was swallowed (`False`). -/
  | slowNotify (ok : Bool)
  /-- `logging.error(f"Task failed: ...")` on status FAILED (lines 122-124). -/
  | taskFailed (msg : String)
  /-- timeout log line carrying `last_status` (line 127). -/
  | timeoutLog (last : Option String)
  /-- timeout `reply_text` attempt (line 128). -/
  | timeoutNotify (ok : Bool)
  /-- `logging.error(f"Image API error: ...")` on a non-200 submit (line 81). -/
  | submitErr
  /-- `logging.error(f"Image generation exception: ...")` in the catch-all
      handler (lines 131-132). -/
  | genExn
  deriving DecidableEq

/-- The `output` field of a successful `ImageSynthesis.fetch` response:
    `task_status` (read with `.get('task_status', 'UNKNOWN')`), the
    `results` list (each entry standing for its `url` field), and the
    optional failure `message` (read with `.get('message', 'Unknown error')`). -/
structure FetchOutput where
  task_status : Option String
  results : List String
  message : Option String
  deriving DecidableEq

/-- Result of one `ImageSynthesis.fetch` call: either it raises, or it
    returns a response with a status code and an output payload. -/
inductive FetchResult
  | exn
  | resp (status_code : Nat) (output : FetchOutput)
  deriving DecidableEq

/-- Result of `ImageSynthesis.async_call`: either it raises, or it returns
    a response with a status code and `output['task_id']`. -/
inductive SubmitResult
  | exn
  | resp (status_code : Nat) (task_id : String)
  deriving DecidableEq

/-- `max_wait = 180` (line 87). -/
def max_wait : Nat := 180

/-- `poll_interval = 4` (line 88). -/
def poll_interval : Nat := 4

/-- Result of the polling `while` loop: the value returned (the url on
    SUCCEEDED, `none` on FAILED or timeout), whether an exception escaped
    the loop (an index error on an empty `results` list, or the timeout
    `reply_text` raising) to be caught by the enclosing handler, the number
    of `fetch` attempts performed, and the events emitted. -/
structure LoopOut where
  ret : Option String
  raised : Bool
  fetchCalls : Nat
  events : List Ev
  deriving DecidableEq

/-- The `while elapsed < max_wait` loop of `generate_image_from_prompt`
    (lines 93-129).  State: `elapsed`, `last_status` (initially `None`),
    `notification_sent`, the number `fc` of fetch calls already made (used
    to index the `fetch` oracle) and the number `replies` of `reply_text`
    attempts already made (used to index the `notifyOk` oracle).

    The loop is compiled to structural recursion on `fuel`, the number of
    remaining iterations.  Since `elapsed` starts at 0 and the loop body
    adds exactly `poll_interval = 4` each time, the guard `elapsed < 180`
    holds iff fewer than 45 iterations have run, so entering with
    `fuel = max_wait / poll_interval = 45` and `elapsed = 0` is exactly the
    source loop; `fuel = 0` is the guard failing, i.e. the timeout exit
    (lines 127-129). -/
def pollLoop (fetch : Nat → FetchResult) (notifyOk : Nat → Bool) :
    Nat → Nat → Option String → Bool → Nat → Nat → LoopOut
  | 0, _elapsed, last_status, _notified, _fc, replies =>
    -- guard failed: log the timeout with the last observed status, then
    -- attempt the timeout reply; if it raises, the catch-all takes over.
    if notifyOk replies then
      ⟨none, false, 0, [.timeoutLog last_status, .timeoutNotify true]⟩
    else
      ⟨none, true, 0, [.timeoutLog last_status, .timeoutNotify false]⟩
  | fuel + 1, elapsed, last_status, notified, fc, replies =>
    let elapsed' := elapsed + poll_interval
    match fetch fc with
    | .exn =>
      -- status check exception: log and continue (lines 99-101)
      let r := pollLoop fetch notifyOk fuel elapsed' last_status notified (fc + 1) replies
      ⟨r.ret, r.raised, r.fetchCalls + 1, .poll elapsed' :: .fetchExn :: r.events⟩
    | .resp sc out =>
      if sc ≠ 200 then
        -- status check error: log and continue (lines 103-105)
        let r := pollLoop fetch notifyOk fuel elapsed' last_status notified (fc + 1) replies
        ⟨r.ret, r.raised, r.fetchCalls + 1, .poll elapsed' :: .fetchHTTPErr :: r.events⟩
      else
        let task_status := out.task_status.getD "UNKNOWN"
        -- status change log (lines 109-111)
        let logEvs : List Ev :=
          if last_status ≠ some task_status then [.statusLog task_status] else []
        let last_status' : Option String :=
          if last_status ≠ some task_status then some task_status else last_status
        -- slow-queue notification (lines 113-118): the flag is set only
        -- when the reply succeeds; a raising reply is swallowed by `pass`.
        let doNotify : Bool := 30 ≤ elapsed' && !notified && task_status == "PENDING"
        let notifEvs : List Ev :=
          if doNotify then [.slowNotify (notifyOk replies)] else []
        let notified' : Bool := if doNotify then (notifyOk replies || notified) else notified
        let replies' : Nat := if doNotify then replies + 1 else replies
        if task_status = "SUCCEEDED" then
          -- `status_resp.output['results'][0]['url']` (line 121): an empty
          -- results list raises IndexError, caught by the outer handler.
          match out.results with
          | [] => ⟨none, true, 1, .poll elapsed' :: (logEvs ++ notifEvs)⟩
          | u :: _ => ⟨some u, false, 1, .poll elapsed' :: (logEvs ++ notifEvs)⟩
        else if task_status = "FAILED" then
          ⟨none, false, 1,
            .poll elapsed' :: (logEvs ++ notifEvs ++ [.taskFailed (out.message.getD "Unknown error")])⟩
        else
          let r := pollLoop fetch notifyOk fuel elapsed' last_status' notified' (fc + 1) replies'
          ⟨r.ret, r.raised, r.fetchCalls + 1, .poll elapsed' :: (logEvs ++ notifEvs ++ r.events)⟩

/-- The value produced by one call to `generate_image_from_prompt`: the
    returned `Optional[str]`, the number of fetch calls made, and the
    emitted events. -/
structure RunResult where
  ret : Option String
  fetchCalls : Nat
  events : List Ev
  deriving DecidableEq

/-- `generate_image_from_prompt(prompt, update)` (lines 71-133).  `submit`
    models `ImageSynthesis.async_call` applied to the prompt; on a non-200
    status the function logs and returns `None` with no polling (lines
    80-82); an exception anywhere (submission, the empty-results index
    error, the timeout reply) is caught by the catch-all handler, which
    logs and returns `None` (lines 131-133). -/
def generate_image_from_prompt (prompt : String) (submit : String → SubmitResult)
    (fetch : Nat → FetchResult) (notifyOk : Nat → Bool) : RunResult :=
  match submit prompt with
  | .exn => ⟨none, 0, [.genExn]⟩
  | .resp sc _task_id =>
    if sc ≠ 200 then ⟨none, 0, [.submitErr]⟩
    else
      let r := pollLoop fetch notifyOk (max_wait / poll_interval) 0 none false 0 0
      if r.raised then ⟨none, r.fetchCalls, r.events ++ [.genExn]⟩
      else ⟨r.ret, r.fetchCalls, r.events⟩

/-- Event classifiers used to count occurrences in a trace. -/
def isSlowNotify : Ev → Bool
  | .slowNotify _ => true
  | _ => false

def isSlowNotifyOk : Ev → Bool
  | .slowNotify true => true
  | _ => false

def isStatusLog : Ev → Bool
  | .statusLog _ => true
  | _ => false

def isTaskFailed : Ev → Bool
  | .taskFailed _ => true
  | _ => false

def isTimeoutLog : Ev → Bool
  | .timeoutLog _ => true
  | _ => false

def isPoll : Ev → Bool
  | .poll _ => true
  | _ => false

/-- The `elapsed` values at which loop iterations ran, in order. -/
def pollElapseds (evs : List Ev) : List Nat :=
  evs.filterMap fun e => match e with
    | .poll n => some n
    | _ => none

/-- The statuses recorded by the status-change log line, in order. -/
def statusLogs (evs : List Ev) : List String :=
  evs.filterMap fun e => match e with
    | .statusLog s => some s
    | _ => none

/-- A submission that succeeds with a task id. -/
def submitOK : String → SubmitResult := fun _ => .resp 200 "task-1"

/-- A fetch response payload whose task status is PENDING. -/
def pendingOut : FetchOutput := ⟨some "PENDING", [], none⟩

/-- A backend that stays PENDING on every successful fetch. -/
def fetchPending : Nat → FetchResult := fun _ => .resp 200 pendingOut

/-- A reply channel on which every send succeeds. -/
def alwaysOk : Nat → Bool := fun _ => true

/-- A reply channel on which every send raises (e.g. the chat is closed). -/
def alwaysFail : Nat → Bool := fun _ => false

/-- A fetch response payload reporting FAILED with a backend message. -/
def failOut : FetchOutput := ⟨some "FAILED", [], some "boom"⟩

/-- A backend that reports FAILED on the first fetch. -/
def fetchFail : Nat → FetchResult := fun _ => .resp 200 failOut

/-- A fetch response payload with the given task status and no results. -/
def seqOut (st : String) : FetchOutput := ⟨some st, [], none⟩

/-- A backend whose successive fetches yield the status sequence
    PENDING, PENDING, RUNNING, SUCCEEDED (with one result url). -/
def fetchSeq : Nat → FetchResult := fun n =>
  if n = 0 || n = 1 then .resp 200 (seqOut "PENDING")
  else if n = 2 then .resp 200 (seqOut "RUNNING")
  else .resp 200 ⟨some "SUCCEEDED", ["http://img/1.png"], none⟩

/-- A fetch response payload reporting SUCCEEDED with an empty results list. -/
def emptySuccOut : FetchOutput := ⟨some "SUCCEEDED", [], none⟩

/-- A backend that reports SUCCEEDED with an empty results list. -/
def fetchEmptySucc : Nat → FetchResult := fun _ => .resp 200 emptySuccOut

/-- A fetch response payload reporting SUCCEEDED with one result url. -/
def succOut (u : String) : FetchOutput := ⟨some "SUCCEEDED", [u], none⟩

/-- A backend that reports SUCCEEDED (with result url `u`) on the `N`-th
    fetch and PENDING on every earlier one. -/
def backendN (N : Nat) (u : String) : Nat → FetchResult := fun m =>
  if m + 1 = N then .resp 200 (succOut u) else .resp 200 pendingOut

/-- The `elapsed` values seen by `fuel` successive loop iterations starting
    from the value `a`: each iteration adds `poll_interval` first. -/
def elapsedList : Nat → Nat → List Nat
  | 0, _ => []
  | n + 1, a => (a + poll_interval) :: elapsedList n (a + poll_interval)

/-- Result of the `Generation.call` remote text-completion request: either
    it raises, or it returns a response with a status code and the
    `response.output['text']` payload. -/
inductive LLMResult
  | exn
  | resp (status_code : Nat) (text : String)
  deriving DecidableEq

/-- `is_chinese(text)` (lines 30-35): true iff some character of the text
    satisfies `'一' <= char <= '鿿'`.  Python compares one-character
    strings by code point, which is exactly the `Char.toNat` comparison. -/
def is_chinese (text : String) : Bool :=
  text.data.any fun char => 0x4e00 ≤ char.toNat && char.toNat ≤ 0x9fff

/-- `rewrite_prompt_with_qwen(user_phrase)` (lines 38-68), with the remote
    call's result supplied as an oracle.  On a 200 status the response text
    is stripped and ASCII double quotes are removed (the source repeats the
    same `.replace('"', '')` three times); on a non-200 status or an
    exception a deterministic fallback template embedding the phrase is
    returned (lines 65 and 68; the \x27 escapes are the source's ASCII
    apostrophes around the interpolated phrase). -/
def rewrite_prompt_with_qwen (remote : LLMResult) (user_phrase : String) : String :=
  match remote with
  | .resp sc t =>
    if sc = 200 then (((t.trim).replace "\x22" "").replace "\x22" "").replace "\x22" ""
    else "成都场景中，人们正在体验\x27" ++ user_phrase ++ "\x27，真实生活，细节丰富"
  | .exn => "成都街头，年轻人正在体现\x27" ++ user_phrase ++ "\x27的概念，自然光线，日常环境"

/-- The spec's `usedFallback` flag for a rewrite: whether
    `rewrite_prompt_with_qwen` took one of its two fallback branches
    (non-200 status or exception).  The source signals this only through its
    error log; this names the branch condition. -/
def rewriteUsedFallback (remote : LLMResult) : Bool :=
  match remote with
  | .resp sc _ => sc != 200
  | .exn => true

/-- Whitespace stripped by Python's `str.strip()` (the ASCII whitespace
    characters; the Unicode space classes are not needed here). -/
def pyIsSpace (c : Char) : Bool :=
  c == ' ' || c == '\t' || c == '\n' || c == '\r' || c == Char.ofNat 0x0b || c == Char.ofNat 0x0c

/-- Python's `str.strip()`: drop whitespace from both ends (line 145). -/
def pyStrip (s : String) : String :=
  ⟨((s.data.dropWhile pyIsSpace).reverse.dropWhile pyIsSpace).reverse⟩

/-- `text.startswith('/')` (line 146): for a one-character prefix this is
    exactly the test that the first character is a slash. -/
def startsWithSlash (s : String) : Bool :=
  match s.data with
  | [] => false
  | c :: _ => c == Char.ofNat 0x2f

/-- The prompt-selection step of `handle_message` (lines 149-160): Chinese
    text goes through the rewriter, any other text is used directly as the
    prompt; the second component records whether the remote rewrite call
    was made. -/
def choose_prompt (remote : LLMResult) (text : String) : String × Bool :=
  if is_chinese text then (rewrite_prompt_with_qwen remote text, true)
  else (text, false)

/-- Observable effects of one `handle_message` call: the number of
    `reply_text`/`reply_photo` attempts, whether the rewriter's remote call
    was made, whether a generation job was submitted, and the number of
    status fetches. -/
structure HandlerEffects where
  replies : Nat
  rewriteCalled : Bool
  submitCalled : Bool
  fetchCalls : Nat
  deriving DecidableEq

/-- Reply attempts made inside the poller (slow-queue and timeout sends). -/
def isReply : Ev → Bool
  | .slowNotify _ => true
  | .timeoutNotify _ => true
  | _ => false

/-- `handle_message(update, context)` (lines 144-187), with the incoming
    message text and the remote oracles as inputs.  The text is stripped;
    when it is empty or starts with `'/'` the handler returns at once
    (lines 146-147).  Otherwise one or two acknowledgement replies are sent
    (two in the Chinese branch, lines 152-155; one otherwise, line 158),
    the prompt is chosen by `choose_prompt`, the poller runs, and exactly
    one final reply attempt follows: the failure message when no url came
    back (line 164), else the photo upload or, if it raises, the
    send-failure message (lines 167-187). -/
def handle_message (remote : LLMResult) (submit : String → SubmitResult)
    (fetch : Nat → FetchResult) (notifyOk : Nat → Bool) (text0 : String) : HandlerEffects :=
  let text := pyStrip text0
  if text == "" || startsWithSlash text then ⟨0, false, false, 0⟩
  else
    let p := choose_prompt remote text
    let preReplies := if is_chinese text then 2 else 1
    let r := generate_image_from_prompt p.1 submit fetch notifyOk
    ⟨preReplies + r.events.countP isReply + 1, p.2, true, r.fetchCalls⟩

/-! ## Loop invariants -/

/-- From a state in which `notification_sent` already holds, the loop never
    emits a successful slow-queue notification event: the guard at line 113
    requires the flag to be false. -/
theorem pollLoop_slowOk_not_mem (fetch : Nat → FetchResult) (notifyOk : Nat → Bool) :
    ∀ (fuel elapsed : Nat) (last : Option String) (fc replies : Nat) (e : Ev),
      e ∈ (pollLoop fetch notifyOk fuel elapsed last true fc replies).events →
      isSlowNotifyOk e = false := by
  intro fuel
  induction fuel with
  | zero =>
    intro elapsed last fc replies e he
    by_cases h : notifyOk replies <;>
      simp [pollLoop, h] at he <;>
      rcases he with rfl | rfl <;> rfl
  | succ f ih =>
    intro elapsed last fc replies e he
    rcases hf : fetch fc with _ | ⟨sc, out⟩
    · simp only [pollLoop, hf, List.mem_cons] at he
      rcases he with rfl | rfl | hmem
      · rfl
      · rfl
      · exact ih _ _ _ _ _ hmem
    · simp only [pollLoop, hf] at he
      split at he
      · simp only [List.mem_cons] at he
        rcases he with rfl | rfl | hmem
        · rfl
        · rfl
        · exact ih _ _ _ _ _ hmem
      · simp only [Bool.not_true, Bool.and_false, Bool.false_and, if_false,
          List.nil_append, List.append_nil] at he
        split at he
        · split at he <;>
          · simp only [List.mem_cons, List.mem_append, List.mem_singleton,
              List.not_mem_nil, or_false] at he
            first
            | (rcases he with rfl | rfl <;> rfl)
            | (rcases he with rfl | he | he <;> simp_all [isSlowNotifyOk])
        · split at he <;>
            simp only [List.mem_cons, List.mem_append, List.mem_singleton,
              List.not_mem_nil, List.mem_ite_nil_right, Bool.false_eq_true,
              false_and, and_false, or_false, false_or] at he
          · rcases he with rfl | ⟨-, rfl⟩ | rfl <;> rfl
          · rcases he with rfl | ⟨-, rfl⟩ | hmem
            · rfl
            · rfl
            · exact ih _ _ _ _ _ hmem

/-- `isSlowNotifyOk` on a `slowNotify` event is the recorded send result. -/
theorem isSlowNotifyOk_slowNotify (b : Bool) : isSlowNotifyOk (.slowNotify b) = b := by
  cases b <;> rfl

/-- A `poll` event is not a successful slow-queue notification. -/
theorem isSlowNotifyOk_poll (n : Nat) : isSlowNotifyOk (.poll n) = false := rfl

/-- A `statusLog` event is not a successful slow-queue notification. -/
theorem isSlowNotifyOk_statusLog (s : String) : isSlowNotifyOk (.statusLog s) = false := rfl

/-- A `taskFailed` event is not a successful slow-queue notification. -/
theorem isSlowNotifyOk_taskFailed (m : String) : isSlowNotifyOk (.taskFailed m) = false := rfl

/-- Count form of `pollLoop_slowOk_not_mem`: with the flag set, the loop's
    trace holds no successful slow-queue notification. -/
theorem pollLoop_slowOk_count_zero (fetch : Nat → FetchResult) (notifyOk : Nat → Bool)
    (fuel elapsed : Nat) (last : Option String) (fc replies : Nat) :
    (pollLoop fetch notifyOk fuel elapsed last true fc replies).events.countP isSlowNotifyOk
      = 0 :=
  List.countP_eq_zero.mpr fun e he => by
    simp [pollLoop_slowOk_not_mem fetch notifyOk fuel elapsed last fc replies e he]

/-- From any loop state, at most one slow-queue notification ever succeeds:
    a successful send sets `notification_sent`, and the flag is never
    cleared. -/
theorem pollLoop_slowOk_le_one (fetch : Nat → FetchResult) (notifyOk : Nat → Bool) :
    ∀ (fuel elapsed : Nat) (last : Option String) (notified : Bool) (fc replies : Nat),
      (pollLoop fetch notifyOk fuel elapsed last notified fc replies).events.countP
        isSlowNotifyOk ≤ 1 := by
  intro fuel
  induction fuel with
  | zero =>
    intro elapsed last notified fc replies
    by_cases h : notifyOk replies <;>
      simp [pollLoop, h, isSlowNotifyOk, List.countP_cons, List.countP_nil]
  | succ f ih =>
    intro elapsed last notified fc replies
    rcases hf : fetch fc with _ | ⟨sc, out⟩
    · simpa [pollLoop, hf, List.countP_cons, isSlowNotifyOk] using ih _ _ _ _ _
    · simp only [pollLoop, hf]
      split
      · simpa [List.countP_cons, isSlowNotifyOk] using ih _ _ _ _ _
      · split
        · split <;>
            split_ifs <;>
            cases hb : notifyOk replies <;>
            simp [hb, List.countP_cons, List.countP_append, List.countP_nil,
              isSlowNotifyOk_poll, isSlowNotifyOk_statusLog, isSlowNotifyOk_slowNotify]
        · split
          · split_ifs <;>
              cases hb : notifyOk replies <;>
              simp [hb, List.countP_cons, List.countP_append, List.countP_nil,
                isSlowNotifyOk_poll, isSlowNotifyOk_statusLog, isSlowNotifyOk_slowNotify,
                isSlowNotifyOk_taskFailed]
          · split_ifs <;>
              cases hb : notifyOk replies <;>
              simp [hb, List.countP_cons, List.countP_append, List.countP_nil,
                isSlowNotifyOk_poll, isSlowNotifyOk_statusLog, isSlowNotifyOk_slowNotify,
                pollLoop_slowOk_count_zero] <;>
              exact ih _ _ _ _ _

/-- `pollElapseds` of the empty trace. -/
theorem pollElapseds_nil : pollElapseds [] = [] := rfl

/-- A `poll` event contributes its `elapsed` value. -/
theorem pollElapseds_cons_poll (n : Nat) (evs : List Ev) :
    pollElapseds (.poll n :: evs) = n :: pollElapseds evs := rfl

/-- `pollElapseds` distributes over appending traces. -/
theorem pollElapseds_append (l1 l2 : List Ev) :
    pollElapseds (l1 ++ l2) = pollElapseds l1 ++ pollElapseds l2 := by
  simp [pollElapseds, List.filterMap_append]

/-- A fetch-exception event contributes no `elapsed` value. -/
theorem pollElapseds_cons_fetchExn (evs : List Ev) :
    pollElapseds (.fetchExn :: evs) = pollElapseds evs := rfl

/-- A fetch-HTTP-error event contributes no `elapsed` value. -/
theorem pollElapseds_cons_fetchHTTPErr (evs : List Ev) :
    pollElapseds (.fetchHTTPErr :: evs) = pollElapseds evs := rfl

/-- A status-log event contributes no `elapsed` value. -/
theorem pollElapseds_cons_statusLog (s : String) (evs : List Ev) :
    pollElapseds (.statusLog s :: evs) = pollElapseds evs := rfl

/-- A slow-queue notification event contributes no `elapsed` value. -/
theorem pollElapseds_cons_slowNotify (b : Bool) (evs : List Ev) :
    pollElapseds (.slowNotify b :: evs) = pollElapseds evs := rfl

/-- A task-failed event contributes no `elapsed` value. -/
theorem pollElapseds_cons_taskFailed (m : String) (evs : List Ev) :
    pollElapseds (.taskFailed m :: evs) = pollElapseds evs := rfl

/-- Against a backend that stays PENDING on every successful fetch (and may
    also raise or return non-200 codes), the loop runs its full fuel: it
    returns `none`, performs one fetch attempt per iteration, sees the
    `elapsed` values `elapsedList fuel elapsed`, and logs the timeout
    exactly once. -/
theorem pollLoop_nonterminal (fetch : Nat → FetchResult) (notifyOk : Nat → Bool)
    (hp : ∀ n sc out, fetch n = .resp sc out → sc = 200 → out.task_status = some "PENDING") :
    ∀ (fuel elapsed : Nat) (last : Option String) (notified : Bool) (fc replies : Nat),
      (pollLoop fetch notifyOk fuel elapsed last notified fc replies).ret = none ∧
      (pollLoop fetch notifyOk fuel elapsed last notified fc replies).fetchCalls = fuel ∧
      pollElapseds (pollLoop fetch notifyOk fuel elapsed last notified fc replies).events
        = elapsedList fuel elapsed ∧
      (pollLoop fetch notifyOk fuel elapsed last notified fc replies).events.countP isTimeoutLog
        = 1 := by
  intro fuel
  induction fuel with
  | zero =>
    intro elapsed last notified fc replies
    by_cases h : notifyOk replies <;>
      simp [pollLoop, h, elapsedList, pollElapseds, isTimeoutLog, List.countP_cons,
        List.countP_nil]
  | succ f ih =>
    intro elapsed last notified fc replies
    rcases hf : fetch fc with _ | ⟨sc, out⟩
    · obtain ⟨h1, h2, h3, h4⟩ := ih (elapsed + poll_interval) last notified (fc + 1) replies
      refine ⟨?_, ?_, ?_, ?_⟩
      · simp [pollLoop, hf, h1]
      · simp [pollLoop, hf, h2]
      · simp [pollLoop, hf, pollElapseds_cons_poll, pollElapseds_cons_fetchExn, h3,
          elapsedList]
      · simp [pollLoop, hf, List.countP_cons, h4, isTimeoutLog]
    · by_cases hsc : sc = 200
      · subst hsc
        have hst : out.task_status = some "PENDING" := hp fc 200 out hf rfl
        simp only [pollLoop, hf]
        rw [if_neg (by omega : ¬(200 : Nat) ≠ 200)]
        simp only [hst, Option.getD_some]
        rw [if_neg (by decide : ¬("PENDING" : String) = "SUCCEEDED"),
          if_neg (by decide : ¬("PENDING" : String) = "FAILED")]
        obtain ⟨a1, a2, a3, a4⟩ :=
          ih (elapsed + poll_interval) (some "PENDING") (notifyOk replies || notified)
            (fc + 1) (replies + 1)
        obtain ⟨b1, b2, b3, b4⟩ :=
          ih (elapsed + poll_interval) (some "PENDING") notified (fc + 1) replies
        obtain ⟨c1, c2, c3, c4⟩ :=
          ih (elapsed + poll_interval) last (notifyOk replies || notified) (fc + 1)
            (replies + 1)
        obtain ⟨d1, d2, d3, d4⟩ := ih (elapsed + poll_interval) last notified (fc + 1) replies
        split_ifs <;>
          refine ⟨?_, ?_, ?_, ?_⟩ <;>
          simp [a1, a2, a3, a4, b1, b2, b3, b4, c1, c2, c3, c4, d1, d2, d3, d4,
            pollElapseds_cons_poll, pollElapseds_append, pollElapseds_cons_statusLog,
            pollElapseds_cons_slowNotify, elapsedList, List.countP_cons, List.countP_append,
            isTimeoutLog]
      · obtain ⟨h1, h2, h3, h4⟩ := ih (elapsed + poll_interval) last notified (fc + 1) replies
        refine ⟨?_, ?_, ?_, ?_⟩
        · simp [pollLoop, hf, hsc, h1]
        · simp [pollLoop, hf, hsc, h2]
        · simp [pollLoop, hf, hsc, pollElapseds_cons_poll, pollElapseds_cons_fetchHTTPErr, h3,
            elapsedList]
        · simp [pollLoop, hf, hsc, List.countP_cons, h4, isTimeoutLog]

/-- Against a backend that is PENDING before the `N`-th fetch and SUCCEEDED
    (with one result url) on it, the loop returns the url with no escaped
    exception, performing exactly the remaining `N - fc` fetches, provided
    enough fuel remains. -/
theorem pollLoop_succ_at (fetch : Nat → FetchResult) (notifyOk : Nat → Bool) (u : String)
    (N : Nat) (hpend : ∀ m, m + 1 < N → fetch m = .resp 200 pendingOut)
    (hsucc : fetch (N - 1) = .resp 200 (succOut u)) :
    ∀ (fuel elapsed : Nat) (last : Option String) (notified : Bool) (fc replies : Nat),
      fc < N → N ≤ fc + fuel →
      (pollLoop fetch notifyOk fuel elapsed last notified fc replies).ret = some u ∧
      (pollLoop fetch notifyOk fuel elapsed last notified fc replies).raised = false ∧
      (pollLoop fetch notifyOk fuel elapsed last notified fc replies).fetchCalls + fc = N := by
  intro fuel
  induction fuel with
  | zero =>
    intro elapsed last notified fc replies h1 h2
    exact absurd h2 (by omega)
  | succ f ih =>
    intro elapsed last notified fc replies h1 h2
    by_cases hN : fc + 1 = N
    · have hf : fetch fc = .resp 200 (succOut u) := by
        have hfc : fc = N - 1 := by omega
        rw [hfc]; exact hsucc
      simp only [pollLoop, hf]
      refine ⟨?_, ?_, ?_⟩ <;> simp [succOut] <;> omega
    · have hf : fetch fc = .resp 200 pendingOut := hpend fc (by omega)
      simp only [pollLoop, hf, pendingOut, Option.getD_some, String.reduceEq, reduceIte,
        ne_eq]
      obtain ⟨a1, a2, a3⟩ :=
        ih (elapsed + poll_interval) (some "PENDING") (notifyOk replies || notified)
          (fc + 1) (replies + 1) (by omega) (by omega)
      obtain ⟨b1, b2, b3⟩ :=
        ih (elapsed + poll_interval) (some "PENDING") notified (fc + 1) replies
          (by omega) (by omega)
      obtain ⟨c1, c2, c3⟩ :=
        ih (elapsed + poll_interval) last (notifyOk replies || notified) (fc + 1)
          (replies + 1) (by omega) (by omega)
      obtain ⟨d1, d2, d3⟩ :=
        ih (elapsed + poll_interval) last notified (fc + 1) replies (by omega) (by omega)
      split_ifs <;>
        refine ⟨?_, ?_, ?_⟩ <;>
        simp [a1, a2, a3, b1, b2, b3, c1, c2, c3, d1, d2, d3] <;>
        omega

/-! ## The claims -/

/-- Claim C1 (corrected).  Amended statement: over any job's lifetime the
    slow-queue flag `notification_sent` flips to true at most once — in any
    run at most one slow-queue send succeeds — and when the first eligible
    send succeeds (working channel, backend stays PENDING) `notify` is
    invoked exactly once; but when a send raises, the flag is not set and
    the callback is re-invoked on later eligible polls: with an
    always-failing channel and a forever-PENDING backend, 38 invocations
    occur (one per poll with `elapsed ≥ 30`). -/
theorem C1_slow_notify :
    (∀ (prompt : String) (submit : String → SubmitResult) (fetch : Nat → FetchResult)
        (notifyOk : Nat → Bool),
      (generate_image_from_prompt prompt submit fetch notifyOk).events.countP isSlowNotifyOk
        ≤ 1) ∧
    (generate_image_from_prompt "p" submitOK fetchPending alwaysOk).events.countP isSlowNotify
      = 1 ∧
    (generate_image_from_prompt "p" submitOK fetchPending alwaysFail).events.countP isSlowNotify
      = 38 := by
  refine ⟨?_, by decide, by decide⟩
  intro prompt submit fetch notifyOk
  rcases hs : submit prompt with _ | ⟨sc, tid⟩
  · simp [generate_image_from_prompt, hs, isSlowNotifyOk]
  · by_cases hsc : sc ≠ 200
    · simp [generate_image_from_prompt, hs, hsc, isSlowNotifyOk]
    · simp only [generate_image_from_prompt, hs]
      rw [if_neg hsc]
      have hle := pollLoop_slowOk_le_one fetch notifyOk (max_wait / poll_interval) 0 none
        false 0 0
      split
      · simpa [List.countP_append, List.countP_cons, isSlowNotifyOk] using hle
      · exact hle

/-- Claim C1 counterexample: with a notify channel that always raises and a
    backend that stays PENDING, the notify callback is invoked 38 times,
    not exactly once — a failed send does cause re-invocation on later
    polls, contrary to the claim. -/
theorem C1_claim_false :
    (generate_image_from_prompt "p" submitOK fetchPending alwaysFail).events.countP isSlowNotify
      ≠ 1 := by
  decide

/-- Claim C2 (corrected).  Amended statement: each run produces exactly one
    terminal outcome, and the timeout outcome is distinguished from a
    backend-reported failure only through side effects — the timeout log
    carries the last observed status and a distinct timeout notification is
    sent, while a FAILED status produces a task-failed log with the backend
    message — but the function's returned value is `None` for submission
    failure, job failure and timeout alike; no `failureReason` value is
    part of the returned result. -/
theorem C2_outcomes :
    (generate_image_from_prompt "p" submitOK fetchPending alwaysOk).ret = none ∧
    Ev.timeoutLog (some "PENDING")
      ∈ (generate_image_from_prompt "p" submitOK fetchPending alwaysOk).events ∧
    (generate_image_from_prompt "p" submitOK fetchPending alwaysOk).events.countP isTaskFailed
      = 0 ∧
    generate_image_from_prompt "p" submitOK fetchFail alwaysOk
      = ⟨none, 1, [.poll 4, .statusLog "FAILED", .taskFailed "boom"]⟩ ∧
    (generate_image_from_prompt "p" submitOK fetchFail alwaysOk).events.countP isTimeoutLog
      = 0 ∧
    (generate_image_from_prompt "p" submitOK fetchSeq alwaysOk).ret = some "http://img/1.png" ∧
    generate_image_from_prompt "p" (fun _ => .resp 500 "t") fetchPending alwaysOk
      = ⟨none, 0, [.submitErr]⟩ := by
  refine ⟨by decide, by decide, by decide, by decide, by decide, by decide, by decide⟩

/-- Claim C2 counterexample: the value returned for a timeout equals the
    value returned for a backend-reported job failure (both `None`); the
    timeout outcome is not a distinct failure value carrying a
    `failureReason`. -/
theorem C2_claim_false :
    (generate_image_from_prompt "p" submitOK fetchPending alwaysOk).ret
      = (generate_image_from_prompt "p" submitOK fetchFail alwaysOk).ret ∧
    (generate_image_from_prompt "p" submitOK fetchFail alwaysOk).ret = none := by
  refine ⟨by decide, by decide⟩

/-- Claim C3 (corrected).  Amended statement: on the successfully fetched
    status sequence [PENDING, PENDING, RUNNING, SUCCEEDED], exactly three
    status records are logged — PENDING, RUNNING and SUCCEEDED — because
    `last_status` starts as `None`, so the first observed status is also
    recorded; a repeated status records nothing. -/
theorem C3_transition_logs :
    statusLogs (generate_image_from_prompt "p" submitOK fetchSeq alwaysOk).events
      = ["PENDING", "RUNNING", "SUCCEEDED"] ∧
    (generate_image_from_prompt "p" submitOK fetchSeq alwaysOk).fetchCalls = 4 ∧
    (generate_image_from_prompt "p" submitOK fetchSeq alwaysOk).ret
      = some "http://img/1.png" := by
  refine ⟨by decide, by decide, by decide⟩

/-- Claim C3 counterexample: on [PENDING, PENDING, RUNNING, SUCCEEDED] the
    number of recorded status changes is not two (it is three: the first
    observed status is also recorded). -/
theorem C3_claim_false :
    (generate_image_from_prompt "p" submitOK fetchSeq alwaysOk).events.countP isStatusLog
      ≠ 2 := by
  decide

/-- Claim C4 (corrected).  Amended statement: when a fetch reports
    SUCCEEDED with an empty results list, the index error raised by
    `results[0]` is caught by the function's catch-all handler, which logs
    a generic generation exception and returns `None`: no low-level error
    propagates to the caller, but no distinct "malformed success payload"
    JobFailed outcome is produced either — the failure is indistinguishable
    from any other exception. -/
theorem C4_empty_results :
    generate_image_from_prompt "p" submitOK fetchEmptySucc alwaysOk
      = ⟨none, 1, [.poll 4, .statusLog "SUCCEEDED", .genExn]⟩ := by
  decide

/-- Claim C4 counterexample: on a SUCCEEDED response with an empty results
    list, no JobFailed-style outcome is produced — the trace holds no
    task-failed record; the run ends through the generic exception
    handler. -/
theorem C4_claim_false :
    (generate_image_from_prompt "p" submitOK fetchEmptySucc alwaysOk).events.countP isTaskFailed
      = 0 ∧
    Ev.genExn ∈ (generate_image_from_prompt "p" submitOK fetchEmptySucc alwaysOk).events := by
  refine ⟨by decide, by decide⟩

/-- Claim C5 (confirmed): against any backend that stays PENDING on every
    successful status fetch (fetch attempts may also raise or return
    non-200), the loop terminates with a timeout outcome (`None`, with
    exactly one timeout log), performs exactly 180 / 4 = 45 polls, and the
    `elapsed` values grow by the 4-second interval each poll, strictly
    increasing and never exceeding the 180-second maximum wait. -/
theorem C5_pending_timeout (fetch : Nat → FetchResult) (notifyOk : Nat → Bool)
    (hp : ∀ n sc out, fetch n = .resp sc out → sc = 200 → out.task_status = some "PENDING") :
    (generate_image_from_prompt "p" submitOK fetch notifyOk).ret = none ∧
    (generate_image_from_prompt "p" submitOK fetch notifyOk).fetchCalls = 45 ∧
    pollElapseds (generate_image_from_prompt "p" submitOK fetch notifyOk).events
      = (List.range 45).map (fun k => poll_interval * (k + 1)) ∧
    (∀ e ∈ pollElapseds (generate_image_from_prompt "p" submitOK fetch notifyOk).events,
      e ≤ max_wait) ∧
    List.Chain' (· < ·)
      (pollElapseds (generate_image_from_prompt "p" submitOK fetch notifyOk).events) ∧
    (generate_image_from_prompt "p" submitOK fetch notifyOk).events.countP isTimeoutLog
      = 1 := by
  obtain ⟨h1, h2, h3, h4⟩ :=
    pollLoop_nonterminal fetch notifyOk hp (max_wait / poll_interval) 0 none false 0 0
  have hlist : elapsedList (max_wait / poll_interval) 0
      = (List.range 45).map (fun k => poll_interval * (k + 1)) := by decide
  rw [hlist] at h3
  have e45 : max_wait / poll_interval = 45 := by decide
  have hout :
      pollElapseds (generate_image_from_prompt "p" submitOK fetch notifyOk).events
        = (List.range 45).map (fun k => poll_interval * (k + 1)) ∧
      (generate_image_from_prompt "p" submitOK fetch notifyOk).ret = none ∧
      (generate_image_from_prompt "p" submitOK fetch notifyOk).fetchCalls = 45 ∧
      (generate_image_from_prompt "p" submitOK fetch notifyOk).events.countP isTimeoutLog
        = 1 := by
    simp only [generate_image_from_prompt, submitOK]
    rw [if_neg (by omega : ¬(200 : Nat) ≠ 200)]
    split
    · refine ⟨?_, rfl, ?_, ?_⟩
      · rw [pollElapseds_append, h3]
        simp [pollElapseds]
      · show (pollLoop fetch notifyOk (max_wait / poll_interval) 0 none false 0 0).fetchCalls
          = 45
        omega
      · simp [List.countP_append, h4, isTimeoutLog, List.countP_cons]
    · refine ⟨h3, h1, ?_, h4⟩
      show (pollLoop fetch notifyOk (max_wait / poll_interval) 0 none false 0 0).fetchCalls = 45
      omega
  refine ⟨hout.2.1, hout.2.2.1, hout.1, ?_, ?_, hout.2.2.2⟩
  · rw [hout.1]; decide
  · rw [hout.1, List.chain'_map, show (45 : Nat) = 44 + 1 from rfl, List.chain'_range_succ]
    intro m hm
    simp [poll_interval]

/-- Claim C5 witness: the conclusion of `C5_pending_timeout` at the
    concrete always-PENDING backend with a working reply channel. -/
theorem C5_witness :
    (generate_image_from_prompt "p" submitOK fetchPending alwaysOk).ret = none ∧
    (generate_image_from_prompt "p" submitOK fetchPending alwaysOk).fetchCalls = 45 ∧
    pollElapseds (generate_image_from_prompt "p" submitOK fetchPending alwaysOk).events
      = (List.range 45).map (fun k => poll_interval * (k + 1)) ∧
    (∀ e ∈ pollElapseds (generate_image_from_prompt "p" submitOK fetchPending alwaysOk).events,
      e ≤ max_wait) ∧
    List.Chain' (· < ·)
      (pollElapseds (generate_image_from_prompt "p" submitOK fetchPending alwaysOk).events) ∧
    (generate_image_from_prompt "p" submitOK fetchPending alwaysOk).events.countP isTimeoutLog
      = 1 :=
  C5_pending_timeout fetchPending alwaysOk (by
    intro n sc out h hsc
    simp [fetchPending] at h
    rw [← h.2]
    rfl)

/-- Claim C6 (confirmed): with a submission that succeeds and a backend
    that is non-terminal (PENDING) before the `N`-th poll and SUCCEEDED
    with a non-empty first result url on it, for any `1 ≤ N ≤ 45` the run
    returns exactly that url, performs exactly `N` fetch calls, and no
    further polling happens after the terminal status. -/
theorem C6_success_on_poll (N : Nat) (u prompt : String) (notifyOk : Nat → Bool)
    (h1 : 1 ≤ N) (h2 : N ≤ 45) (hu : u ≠ "") :
    (generate_image_from_prompt prompt submitOK (backendN N u) notifyOk).ret = some u ∧
    u ≠ "" ∧
    (generate_image_from_prompt prompt submitOK (backendN N u) notifyOk).fetchCalls = N := by
  have e45 : max_wait / poll_interval = 45 := by decide
  have hpend : ∀ m, m + 1 < N → backendN N u m = .resp 200 pendingOut := by
    intro m hm
    unfold backendN
    rw [if_neg (by omega)]
  have hsucc : backendN N u (N - 1) = .resp 200 (succOut u) := by
    unfold backendN
    rw [if_pos (by omega)]
  obtain ⟨g1, g2, g3⟩ :=
    pollLoop_succ_at (backendN N u) notifyOk u N hpend hsucc (max_wait / poll_interval) 0 none
      false 0 0 (by omega) (by omega)
  simp only [generate_image_from_prompt, submitOK]
  rw [if_neg (by omega : ¬(200 : Nat) ≠ 200)]
  split
  · rename_i hr
    rw [g2] at hr
    exact absurd hr (by decide)
  · have g3' :
        (pollLoop (backendN N u) notifyOk (max_wait / poll_interval) 0 none false 0 0).fetchCalls
          = N := by omega
    exact ⟨g1, hu, g3'⟩

/-- Claim C6 witness: `C6_success_on_poll` at `N = 3` with a concrete
    result url. -/
theorem C6_witness :
    (generate_image_from_prompt "p" submitOK (backendN 3 "http://img/1.png") alwaysOk).ret
      = some "http://img/1.png" ∧
    ("http://img/1.png" : String) ≠ "" ∧
    (generate_image_from_prompt "p" submitOK (backendN 3 "http://img/1.png") alwaysOk).fetchCalls
      = 3 :=
  C6_success_on_poll 3 "http://img/1.png" "p" alwaysOk (by decide) (by decide) (by decide)

/-- Claim C7 (confirmed): when the submission returns a non-OK status the
    run returns the failure value immediately with only the submission
    error logged — zero fetch calls and no poll iteration; likewise when
    the submission raises, via the catch-all handler. -/
theorem C7_submit_failure (prompt tid : String) (sc : Nat) (fetch : Nat → FetchResult)
    (notifyOk : Nat → Bool) (h : sc ≠ 200) :
    generate_image_from_prompt prompt (fun _ => .resp sc tid) fetch notifyOk
      = ⟨none, 0, [.submitErr]⟩ ∧
    generate_image_from_prompt prompt (fun _ => .exn) fetch notifyOk
      = ⟨none, 0, [.genExn]⟩ := by
  constructor
  · simp [generate_image_from_prompt, h]
  · rfl

/-- Claim C7 witness: `C7_submit_failure` at status code 500. -/
theorem C7_witness :
    generate_image_from_prompt "p" (fun _ => .resp 500 "t") fetchPending alwaysOk
      = ⟨none, 0, [.submitErr]⟩ ∧
    generate_image_from_prompt "p" (fun _ => .exn) fetchPending alwaysOk
      = ⟨none, 0, [.genExn]⟩ :=
  C7_submit_failure "p" "t" 500 fetchPending alwaysOk (by decide)

/-- Claim C8 (confirmed): for a non-empty CJK phrase, whenever the remote
    text-completion call fails (non-OK status, or any raised exception),
    the rewrite takes a fallback branch (the spec's usedFallback flag) and
    returns a deterministic template string containing the raw phrase as a
    substring; the function is total, so it never raises to its caller. -/
theorem C8_rewrite_fallback (phrase : String) (remote : LLMResult)
    (hne : phrase ≠ "") (hcjk : is_chinese phrase = true)
    (hfail : remote = .exn ∨ ∃ sc t, remote = .resp sc t ∧ sc ≠ 200) :
    rewriteUsedFallback remote = true ∧
    ∃ a b : String, rewrite_prompt_with_qwen remote phrase = a ++ phrase ++ b := by
  rcases hfail with rfl | ⟨sc, t, rfl, hsc⟩
  · exact ⟨rfl, "成都街头，年轻人正在体现\x27", "\x27的概念，自然光线，日常环境", rfl⟩
  · refine ⟨by simp [rewriteUsedFallback, hsc],
      "成都场景中，人们正在体验\x27", "\x27，真实生活，细节丰富", ?_⟩
    simp [rewrite_prompt_with_qwen, hsc]

/-- Claim C8 witness: `C8_rewrite_fallback` on the one-character CJK phrase
    with a raising remote call. -/
theorem C8_witness :
    ("猫" : String) ≠ "" ∧ is_chinese "猫" = true ∧
    (rewriteUsedFallback .exn = true ∧
      ∃ a b : String, rewrite_prompt_with_qwen .exn "猫" = a ++ "猫" ++ b) :=
  ⟨by decide, by decide,
    C8_rewrite_fallback "猫" .exn (by decide) (by decide) (Or.inl rfl)⟩

/-- Claim C9 (confirmed): `is_chinese` holds exactly when some character's
    code point lies in U+4E00..U+9FFF; and on any input classified OTHER
    the chosen prompt is the raw text unchanged with no remote call, so the
    choice is a pure function of the text (identical on repeated calls). -/
theorem C9_language (s : String) :
    (is_chinese s = true ↔ ∃ c ∈ s.data, 0x4e00 ≤ c.toNat ∧ c.toNat ≤ 0x9fff) ∧
    (is_chinese s = false → ∀ remote : LLMResult, choose_prompt remote s = (s, false)) := by
  constructor
  · simp [is_chinese, List.any_eq_true, Bool.and_eq_true, decide_eq_true_eq]
  · intro h remote
    simp [choose_prompt, h]

/-- Claim C9 witness: `C9_language` applied to the OTHER-classified input
    "cat". -/
theorem C9_witness :
    choose_prompt .exn "cat" = ("cat", false) :=
  (C9_language "cat").2 (by decide) .exn

/-- Claim C10 (confirmed): when the stripped message text is empty or
    starts with a slash, the handler returns at once with no visible
    effect: no reply, no rewrite call, no submission, no status fetch. -/
theorem C10_guard (remote : LLMResult) (submit : String → SubmitResult)
    (fetch : Nat → FetchResult) (notifyOk : Nat → Bool) (text0 : String)
    (h : pyStrip text0 = "" ∨ startsWithSlash (pyStrip text0) = true) :
    handle_message remote submit fetch notifyOk text0 = ⟨0, false, false, 0⟩ := by
  rcases h with h | h
  · simp [handle_message, h]
  · simp [handle_message, h]

/-- Claim C10 witness: `C10_guard` on a command message and on a
    whitespace-only message. -/
theorem C10_witness :
    handle_message .exn submitOK fetchPending alwaysOk " /start " = ⟨0, false, false, 0⟩ ∧
    handle_message .exn submitOK fetchPending alwaysOk "   " = ⟨0, false, false, 0⟩ :=
  ⟨C10_guard .exn submitOK fetchPending alwaysOk " /start " (Or.inr (by decide)),
    C10_guard .exn submitOK fetchPending alwaysOk "   " (Or.inl (by decide))⟩

end Bot
